import Mathlib

/-!
Shallow embedding of the Homechart Home-Assistant integration
(custom_components/homechart): the data model from `api.py`, the calendar
event expansion and filtering from `calendar.py`, the coordinators from
`__init__.py`, the task sensors from `sensor.py` and the member to-do list
from `todo.py`.

Conventions of the embedding:
* a Python `date` is an `Int`, the day number (days since an arbitrary
  epoch); `timedelta(days=n)` is `+ n`; `date.today()` is an explicit
  `today : Int` parameter;
* a Python `datetime` is represented by its total minutes since the epoch
  midnight, so `.date()` is floor division by 1440;
* the opaque `time_start` string is abstracted to its parse result:
  `none` = attribute missing or falsy, `some none` = a truthy string on
  which `int(...)`/`time.replace` raises (caught by the code),
  `some (some (h, m))` = a truthy string parsing to hour `h`, minute `m`;
* the `recurrence` dict is a structure holding the two keys the code reads:
  `separation` (`none` = key absent, read with default 0) and the raw
  `end` value abstracted to its parse result (`none` = key absent or falsy,
  `some none` = truthy but `date.fromisoformat` raises, `some (some d)` =
  truthy and parses to day `d`);
* f-string uids are represented structurally by `CalUid`: Python builds
  `f"event_{id}"`, `f"event_{id}_{date.isoformat()}"` and `f"task_{id}"`,
  which are pairwise distinct exactly when the corresponding `CalUid`
  values are (ISO format is injective on dates).
-/

namespace Homechart

/-- `HomechartTask` dataclass from `api.py`. -/
structure HomechartTask where
  id : String
  name : String
  details : Option String := none
  done : Bool := false
  due_date : Option Int := none
  assignees : List String := []
  tags : List String := []
  project_id : Option String := none
  project_name : Option String := none
  deriving DecidableEq, Repr

/-- `HomechartProject` dataclass from `api.py`. -/
structure HomechartProject where
  id : String
  name : String
  deriving DecidableEq, Repr

/-- `HomechartHouseholdMember` dataclass from `api.py`. -/
structure HomechartHouseholdMember where
  id : String
  name : String
  email : Option String := none
  deriving DecidableEq, Repr

/-- The recurrence dict attached to an event: the two keys the code reads. -/
structure Recurrence where
  separation : Option Int := none
  recur_end : Option (Option Int) := none
  deriving DecidableEq, Repr

/-- `HomechartEvent` dataclass from `api.py`. -/
structure HomechartEvent where
  id : String
  name : String
  details : Option String := none
  location : Option String := none
  date_start : Option Int := none
  date_end : Option Int := none
  time_start : Option (Option (Nat × Nat)) := none
  duration : Option Int := none
  participants : List String := []
  recurrence : Option Recurrence := none
  skip_days : List Int := []
  deriving DecidableEq, Repr

/-- A calendar timestamp: either an all-day `date` or a `datetime`
(total minutes since the epoch midnight). -/
inductive CalTime where
  | allDay (day : Int)
  | atTime (minutes : Int)
  deriving DecidableEq, Repr

/-- Python `.date()` on a `CalTime`. -/
def CalTime.day : CalTime → Int
  | .allDay d => d
  | .atTime m => Int.fdiv m 1440

/-- Structural model of the uid strings the integration builds. -/
inductive CalUid where
  | eventOnDate (eventId : String) (day : Int)
  | eventPlain (eventId : String)
  | taskUid (taskId : String)
  deriving DecidableEq, Repr

/-- The fields of Home Assistant's `CalendarEvent` the integration sets
and reads; `start` and `end` are optional to mirror the defensive
`isinstance`/`None` handling in `async_get_events`. -/
structure CalendarEvent where
  summary : String
  start : Option CalTime
  ev_end : Option CalTime
  description : Option String := none
  location : Option String := none
  uid : CalUid
  deriving DecidableEq, Repr

/-- Home Assistant `TodoItemStatus`. -/
inductive TodoItemStatus where
  | needsAction
  | completed
  deriving DecidableEq, Repr

/-- The fields of Home Assistant's `TodoItem` the integration sets. -/
structure TodoItem where
  uid : String
  summary : String
  status : TodoItemStatus
  due : Option Int := none
  description : Option String := none
  deriving DecidableEq, Repr

/-- The dict returned by `HomechartTaskCoordinator._async_update_data`. -/
structure TaskData where
  tasks : List HomechartTask
  projects : List HomechartProject
  members : List HomechartHouseholdMember
  member_map : List (String × HomechartHouseholdMember)
  deriving DecidableEq, Repr

/-- The dict returned by `HomechartEventCoordinator._async_update_data`. -/
structure EventData where
  events : List HomechartEvent
  members : List HomechartHouseholdMember
  member_map : List (String × HomechartHouseholdMember)
  deriving DecidableEq, Repr

/-- The Python dict comprehension `{m.id: m for m in members}`, as an
association list in insertion order. -/
def mk_member_map (members : List HomechartHouseholdMember) :
    List (String × HomechartHouseholdMember) :=
  members.map (fun m => (m.id, m))

/-- Python `dict.get`: the value of the last insertion with the key wins. -/
def map_get (mm : List (String × HomechartHouseholdMember)) (k : String) :
    Option HomechartHouseholdMember :=
  mm.foldl (fun acc p => if p.1 = k then some p.2 else acc) none

/-- The participant/assignee name resolution loop shared by
`_convert_homechart_event`, `_convert_homechart_event_on_date` and
`_get_all_calendar_events`: look every id up in `member_map`, keep
the names of those found. -/
def resolve_names (mm : List (String × HomechartHouseholdMember))
    (ids : List String) : List String :=
  ids.filterMap (fun pid => (map_get mm pid).map (·.name))

/-- Append `" (name1, name2)"` to a title when any names resolved, as the
summary/title construction does. -/
def with_names (base : String) (names : List String) : String :=
  if names.isEmpty then base
  else base ++ " (" ++ String.intercalate ", " names ++ ")"

/-- Python `date.fromisoformat(str(recurrence["end"]))` guarded by the
truthiness check and the `try`/`except` in `_expand_recurring_event`:
the parsed end date, when the `end` value is truthy and parses. -/
def parse_recurrence_end (rec : Recurrence) : Option Int :=
  match rec.recur_end with
  | some (some d) => some d
  | _ => none

/-- `recurrence_end and current_date > recurrence_end`: the second break
condition of the `while` loop of `_expand_recurring_event`. -/
def past_recurrence_end (recurrence_end : Option Int) (current_date : Int) : Bool :=
  match recurrence_end with
  | some e => decide (current_date > e)
  | none => false

/-- The `while count < max_occurrences` loop of `_expand_recurring_event`
(identical in `HomechartHouseholdCalendar` and `HomechartMemberCalendar`),
parameterised by the per-class converter `conv`; `fuel` is
`max_occurrences - count`. -/
def expand_loop (conv : Int → Option CalendarEvent) (separation : Int)
    (recurrence_end : Option Int) (skip_days : List Int)
    (start_window end_window : Int) : Nat → Int → List CalendarEvent
  | 0, _ => []
  | fuel + 1, current_date =>
    if current_date > end_window then []
    else if past_recurrence_end recurrence_end current_date then []
    else
      let rest := expand_loop conv separation recurrence_end skip_days
          start_window end_window fuel (current_date + separation)
      if current_date ≥ start_window ∧ current_date ∉ skip_days then
        match conv current_date with
        | some ce => ce :: rest
        | none => rest
      else rest

namespace HomechartHouseholdCalendar

/-- `HomechartHouseholdCalendar._convert_homechart_event_on_date`. -/
def convert_homechart_event_on_date
    (mm : List (String × HomechartHouseholdMember))
    (hc : HomechartEvent) (event_date : Int) : Option CalendarEvent :=
  let se : CalTime × CalTime :=
    match hc.time_start, hc.duration with
    | some ts, some dur =>
      if dur ≠ 0 then
        match ts with
        | some (h, m) =>
          let st : Int := event_date * 1440 + (h : Int) * 60 + (m : Int)
          (CalTime.atTime st, CalTime.atTime (st + dur))
        | none => (CalTime.allDay event_date, CalTime.allDay (event_date + 1))
      else (CalTime.allDay event_date, CalTime.allDay (event_date + 1))
    | _, _ => (CalTime.allDay event_date, CalTime.allDay (event_date + 1))
  some { summary := with_names hc.name (resolve_names mm hc.participants),
         start := some se.1, ev_end := some se.2,
         description := hc.details, location := hc.location,
         uid := CalUid.eventOnDate hc.id event_date }

/-- `HomechartHouseholdCalendar._convert_homechart_event`. -/
def convert_homechart_event
    (mm : List (String × HomechartHouseholdMember))
    (hc : HomechartEvent) : Option CalendarEvent :=
  match hc.date_start with
  | none => none
  | some ds =>
    let se : CalTime × CalTime :=
      match hc.time_start, hc.duration with
      | some ts, some dur =>
        if dur ≠ 0 then
          match ts with
          | some (h, m) =>
            let st : Int := ds * 1440 + (h : Int) * 60 + (m : Int)
            (CalTime.atTime st, CalTime.atTime (st + dur))
          | none => (CalTime.allDay ds, CalTime.allDay (hc.date_end.getD ds + 1))
        else (CalTime.allDay ds, CalTime.allDay (hc.date_end.getD ds + 1))
      | _, _ => (CalTime.allDay ds, CalTime.allDay (hc.date_end.getD ds + 1))
    some { summary := with_names hc.name (resolve_names mm hc.participants),
           start := some se.1, ev_end := some se.2,
           description := hc.details, location := hc.location,
           uid := CalUid.eventPlain hc.id }

/-- `HomechartHouseholdCalendar._expand_recurring_event`. -/
def expand_recurring_event
    (mm : List (String × HomechartHouseholdMember))
    (hc : HomechartEvent) (today : Int) : List CalendarEvent :=
  match hc.date_start with
  | none => []
  | some ds =>
    match hc.recurrence with
    | none => (convert_homechart_event mm hc).toList
    | some rec =>
      let separation := rec.separation.getD 0
      if separation = 0 then (convert_homechart_event mm hc).toList
      else
        expand_loop (convert_homechart_event_on_date mm hc) separation
          (parse_recurrence_end rec) hc.skip_days (today - 30) (today + 90)
          365 ds

/-- The task branch of
`HomechartHouseholdCalendar._get_all_calendar_events`: the calendar event
built for a not-done task with due date `dd`. -/
def task_calendar_event (mm : List (String × HomechartHouseholdMember))
    (t : HomechartTask) (dd : Int) : CalendarEvent :=
  { summary := with_names ("📋 " ++ t.name) (resolve_names mm t.assignees),
    start := some (CalTime.allDay dd),
    ev_end := some (CalTime.allDay (dd + 1)),
    description := t.details,
    uid := CalUid.taskUid t.id }

/-- `HomechartHouseholdCalendar._get_all_calendar_events`. -/
def get_all_calendar_events (event_data : Option EventData)
    (task_data : Option TaskData) (today : Int) : List CalendarEvent :=
  (match event_data with
   | none => []
   | some d =>
     (d.events.map (fun hc => expand_recurring_event d.member_map hc today)).flatten) ++
  (match task_data with
   | none => []
   | some d =>
     (d.tasks.map (fun t =>
        match t.due_date with
        | some dd => if ¬ t.done then [task_calendar_event d.member_map t dd] else []
        | none => [])).flatten)

end HomechartHouseholdCalendar

namespace HomechartMemberCalendar

/-- `HomechartMemberCalendar._convert_homechart_event_on_date` (no
participant-name decoration on the summary). -/
def convert_homechart_event_on_date
    (hc : HomechartEvent) (event_date : Int) : Option CalendarEvent :=
  let se : CalTime × CalTime :=
    match hc.time_start, hc.duration with
    | some ts, some dur =>
      if dur ≠ 0 then
        match ts with
        | some (h, m) =>
          let st : Int := event_date * 1440 + (h : Int) * 60 + (m : Int)
          (CalTime.atTime st, CalTime.atTime (st + dur))
        | none => (CalTime.allDay event_date, CalTime.allDay (event_date + 1))
      else (CalTime.allDay event_date, CalTime.allDay (event_date + 1))
    | _, _ => (CalTime.allDay event_date, CalTime.allDay (event_date + 1))
  some { summary := hc.name,
         start := some se.1, ev_end := some se.2,
         description := hc.details, location := hc.location,
         uid := CalUid.eventOnDate hc.id event_date }

/-- `HomechartMemberCalendar._expand_recurring_event`. -/
def expand_recurring_event (hc : HomechartEvent) (today : Int) :
    List CalendarEvent :=
  match hc.date_start with
  | none => []
  | some ds =>
    match hc.recurrence with
    | none => (convert_homechart_event_on_date hc ds).toList
    | some rec =>
      let separation := rec.separation.getD 0
      if separation = 0 then (convert_homechart_event_on_date hc ds).toList
      else
        expand_loop (convert_homechart_event_on_date hc) separation
          (parse_recurrence_end rec) hc.skip_days (today - 30) (today + 90)
          365 ds

/-- The task branch of
`HomechartMemberCalendar._get_member_calendar_events`. -/
def member_task_event (t : HomechartTask) (dd : Int) : CalendarEvent :=
  { summary := "📋 " ++ t.name,
    start := some (CalTime.allDay dd),
    ev_end := some (CalTime.allDay (dd + 1)),
    description := t.details,
    uid := CalUid.taskUid t.id }

/-- `HomechartMemberCalendar._get_member_calendar_events`. -/
def get_member_calendar_events (event_data : Option EventData)
    (task_data : Option TaskData) (member : HomechartHouseholdMember)
    (today : Int) : List CalendarEvent :=
  (match event_data with
   | none => []
   | some d =>
     (d.events.map (fun hc =>
        if member.id ∈ hc.participants
        then expand_recurring_event hc today
        else [])).flatten) ++
  (match task_data with
   | none => []
   | some d =>
     (d.tasks.map (fun t =>
        match t.due_date with
        | some dd =>
          if ¬ t.done then
            if member.id ∈ t.assignees then [member_task_event t dd] else []
          else []
        | none => [])).flatten)

end HomechartMemberCalendar

/-- The range filter of `async_get_events` (identical in
`HomechartHouseholdCalendar` and `HomechartMemberCalendar`): keep the
events overlapping the query dates `start_d`/`end_d` (the `.date()` of the
query datetimes), skipping events without a start. -/
def filter_events_in_range (events : List CalendarEvent)
    (start_d end_d : Int) : List CalendarEvent :=
  match events with
  | [] => []
  | ev :: rest =>
    let r := filter_events_in_range rest start_d end_d
    match ev.start with
    | none => r
    | some st =>
      let ev_start_d := st.day
      let ev_end_d := match ev.ev_end with
        | some e => e.day
        | none => ev_start_d
      if ev_start_d ≤ end_d ∧ ev_end_d ≥ start_d then ev :: r else r

/-- `HomechartHouseholdCalendar.async_get_events`. -/
def HomechartHouseholdCalendar.async_get_events (event_data : Option EventData)
    (task_data : Option TaskData) (today : Int) (start_d end_d : Int) :
    List CalendarEvent :=
  filter_events_in_range
    (HomechartHouseholdCalendar.get_all_calendar_events event_data task_data today)
    start_d end_d

/-- `HomechartMemberCalendar.async_get_events`. -/
def HomechartMemberCalendar.async_get_events (event_data : Option EventData)
    (task_data : Option TaskData) (member : HomechartHouseholdMember)
    (today : Int) (start_d end_d : Int) : List CalendarEvent :=
  filter_events_in_range
    (HomechartMemberCalendar.get_member_calendar_events event_data task_data
      member today)
    start_d end_d

/-- `HomechartApiError` from `api.py`, carrying its message. -/
structure HomechartApiError where
  msg : String
  deriving DecidableEq, Repr

/-- Home Assistant's `UpdateFailed`, carrying its message. -/
structure UpdateFailed where
  msg : String
  deriving DecidableEq, Repr

/-- `SCAN_INTERVAL = timedelta(minutes=5)` from `const.py`, in seconds. -/
def SCAN_INTERVAL : Int := 5 * 60

/-- `CALENDAR_SCAN_INTERVAL = timedelta(minutes=15)` from `const.py`,
in seconds. -/
def CALENDAR_SCAN_INTERVAL : Int := 15 * 60

/-- The state `HomechartTaskCoordinator.__init__` establishes. -/
structure HomechartTaskCoordinator where
  update_interval : Int
  members : List HomechartHouseholdMember
  member_map : List (String × HomechartHouseholdMember)
  deriving Repr

/-- `HomechartTaskCoordinator.__init__`: `update_interval=SCAN_INTERVAL`,
members kept, `member_map = {m.id: m for m in members}`. -/
def HomechartTaskCoordinator.create (members : List HomechartHouseholdMember) :
    HomechartTaskCoordinator :=
  { update_interval := SCAN_INTERVAL,
    members := members,
    member_map := mk_member_map members }

/-- `HomechartTaskCoordinator._async_update_data`; the two fetches are the
results of `api.get_tasks` and `api.get_projects` (the latter only reached
when the former succeeds, matching the sequential `try` body). -/
def HomechartTaskCoordinator.async_update_data (co : HomechartTaskCoordinator)
    (fetch_tasks : Except HomechartApiError (List HomechartTask))
    (fetch_projects : Except HomechartApiError (List HomechartProject)) :
    Except UpdateFailed TaskData :=
  match fetch_tasks with
  | .error err => .error ⟨"Error communicating with API: " ++ err.msg⟩
  | .ok tasks =>
    match fetch_projects with
    | .error err => .error ⟨"Error communicating with API: " ++ err.msg⟩
    | .ok projects =>
      .ok { tasks := tasks, projects := projects,
            members := co.members, member_map := co.member_map }

/-- The state `HomechartEventCoordinator.__init__` establishes. -/
structure HomechartEventCoordinator where
  update_interval : Int
  members : List HomechartHouseholdMember
  member_map : List (String × HomechartHouseholdMember)
  deriving Repr

/-- `HomechartEventCoordinator.__init__`:
`update_interval=timedelta(minutes=15)` (in seconds here), members kept,
`member_map = {m.id: m for m in members}`. -/
def HomechartEventCoordinator.create (members : List HomechartHouseholdMember) :
    HomechartEventCoordinator :=
  { update_interval := 15 * 60,
    members := members,
    member_map := mk_member_map members }

/-- `HomechartEventCoordinator._async_update_data`. -/
def HomechartEventCoordinator.async_update_data (co : HomechartEventCoordinator)
    (fetch_events : Except HomechartApiError (List HomechartEvent)) :
    Except UpdateFailed EventData :=
  match fetch_events with
  | .error err => .error ⟨"Error communicating with API: " ++ err.msg⟩
  | .ok events =>
    .ok { events := events, members := co.members, member_map := co.member_map }

/-- The three sensor types set up for household and member sensors. -/
inductive SensorType where
  | tasks_today
  | tasks_overdue
  | tasks_upcoming
  deriving DecidableEq, Repr

namespace HomechartHouseholdSensor

/-- `HomechartHouseholdSensor._get_filtered_tasks`; `upcoming_days_option`
is `entry.options.get("upcoming_days", 7)`. -/
def get_filtered_tasks (data : Option TaskData)
    (upcoming_days_option : Option Int) (today : Int)
    (sensor_type : SensorType) : List HomechartTask :=
  match data with
  | none => []
  | some d =>
    let all_tasks := d.tasks
    match sensor_type with
    | .tasks_today =>
      all_tasks.filter (fun t => t.due_date == some today && !t.done)
    | .tasks_overdue =>
      all_tasks.filter (fun t =>
        match t.due_date with
        | some dd => decide (dd < today) && !t.done
        | none => false)
    | .tasks_upcoming =>
      let upcoming_days := upcoming_days_option.getD 7
      let end_date := today + upcoming_days
      all_tasks.filter (fun t =>
        match t.due_date with
        | some dd => decide (today ≤ dd) && decide (dd ≤ end_date) && !t.done
        | none => false)

/-- `HomechartHouseholdSensor.native_value`. -/
def native_value (data : Option TaskData) (upcoming_days_option : Option Int)
    (today : Int) (sensor_type : SensorType) : Nat :=
  (get_filtered_tasks data upcoming_days_option today sensor_type).length

end HomechartHouseholdSensor

namespace HomechartMemberSensor

/-- `HomechartMemberSensor._get_filtered_tasks`: the household filters on
the tasks restricted to this member's assignments. -/
def get_filtered_tasks (data : Option TaskData)
    (upcoming_days_option : Option Int) (today : Int)
    (sensor_type : SensorType) (member : HomechartHouseholdMember) :
    List HomechartTask :=
  match data with
  | none => []
  | some d =>
    let member_tasks := d.tasks.filter (fun t => decide (member.id ∈ t.assignees))
    match sensor_type with
    | .tasks_today =>
      member_tasks.filter (fun t => t.due_date == some today && !t.done)
    | .tasks_overdue =>
      member_tasks.filter (fun t =>
        match t.due_date with
        | some dd => decide (dd < today) && !t.done
        | none => false)
    | .tasks_upcoming =>
      let upcoming_days := upcoming_days_option.getD 7
      let end_date := today + upcoming_days
      member_tasks.filter (fun t =>
        match t.due_date with
        | some dd => decide (today ≤ dd) && decide (dd ≤ end_date) && !t.done
        | none => false)

/-- `HomechartMemberSensor.native_value`. -/
def native_value (data : Option TaskData) (upcoming_days_option : Option Int)
    (today : Int) (sensor_type : SensorType)
    (member : HomechartHouseholdMember) : Nat :=
  (get_filtered_tasks data upcoming_days_option today sensor_type member).length

end HomechartMemberSensor

namespace HomechartMemberTodoList

/-- `HomechartMemberTodoList.todo_items`; `show_completed` is
`entry.options.get("show_completed_tasks", False)`. -/
def todo_items (data : Option TaskData) (member : HomechartHouseholdMember)
    (show_completed : Bool) : List TodoItem :=
  match data with
  | none => []
  | some d =>
    (d.tasks.map (fun task =>
      if member.id ∉ task.assignees then []
      else if task.done && !show_completed then []
      else [{ uid := task.id,
              summary := task.name,
              status := if task.done then TodoItemStatus.completed
                        else TodoItemStatus.needsAction,
              due := task.due_date,
              description := task.details }])).flatten

end HomechartMemberTodoList

/-- The per-event acceptance condition of `async_get_events`, stated
independently of the loop: the event has a start, its start calendar date
is on or before the query end date, and its end calendar date (the start
date when no end is present) is on or after the query start date. -/
def overlaps_range (start_d end_d : Int) (ev : CalendarEvent) : Bool :=
  match ev.start with
  | none => false
  | some st =>
    decide (st.day ≤ end_d) &&
      decide ((match ev.ev_end with
               | some e => e.day
               | none => st.day) ≥ start_d)

/-! Concrete instances used to witness the theorems below. -/

def wrec100 : Recurrence := { separation := some 100 }

def wev100 : HomechartEvent :=
  { id := "e1", name := "E", date_start := some 0, recurrence := some wrec100 }

def wce100 : CalendarEvent :=
  { summary := "E", start := some (CalTime.allDay 0),
    ev_end := some (CalTime.allDay 1), uid := CalUid.eventOnDate "e1" 0 }

def cxrec1 : Recurrence := { separation := some 1 }

def cxev1 : HomechartEvent :=
  { id := "e1", name := "E", date_start := some (-400),
    recurrence := some cxrec1 }

def wrec50 : Recurrence := { separation := some 50 }

def wev50 : HomechartEvent :=
  { id := "e2", name := "F", date_start := some 0, recurrence := some wrec50 }

def wev_nostart : HomechartEvent := { id := "e3", name := "G" }

def wev_norec : HomechartEvent :=
  { id := "e4", name := "H", date_start := some 5 }

def wrec40 : Recurrence := { separation := some 40 }

def wev40 : HomechartEvent :=
  { id := "e5", name := "I", date_start := some 0, recurrence := some wrec40 }

def wce40 : CalendarEvent :=
  { summary := "I", start := some (CalTime.allDay 0),
    ev_end := some (CalTime.allDay 1), uid := CalUid.eventOnDate "e5" 0 }

def wmember : HomechartHouseholdMember := { id := "m1", name := "Ann" }

def wtask : HomechartTask :=
  { id := "t1", name := "T", due_date := some 0, assignees := ["m1"] }

def wtaskdata : TaskData :=
  { tasks := [wtask], projects := [], members := [wmember],
    member_map := [("m1", wmember)] }

/-! Lemmas about the expansion loop. -/

theorem expand_loop_length (conv : Int → Option CalendarEvent) (sep : Int)
    (re : Option Int) (skip : List Int) (sW eW : Int) :
    ∀ (fuel : Nat) (cur : Int),
      (expand_loop conv sep re skip sW eW fuel cur).length ≤ fuel := by
  intro fuel
  induction fuel with
  | zero => intro cur; simp [expand_loop]
  | succ n ih =>
    intro cur
    rw [expand_loop]
    split
    · simp
    · split
      · simp
      · split
        · split
          · simpa using Nat.succ_le_succ (ih (cur + sep))
          · exact Nat.le_succ_of_le (ih (cur + sep))
        · exact Nat.le_succ_of_le (ih (cur + sep))

theorem expand_loop_sound (conv : Int → Option CalendarEvent) (sep : Int)
    (re : Option Int) (skip : List Int) (sW eW : Int) :
    ∀ (fuel : Nat) (cur : Int) (ce : CalendarEvent),
      ce ∈ expand_loop conv sep re skip sW eW fuel cur →
      ∃ (k : Nat) (d : Int), d = cur + (k : Int) * sep ∧ sW ≤ d ∧ d ≤ eW ∧
        d ∉ skip ∧ (∀ e, re = some e → d ≤ e) ∧ conv d = some ce := by
  intro fuel
  induction fuel with
  | zero => intro cur ce h; simp [expand_loop] at h
  | succ n ih =>
    intro cur ce h
    rw [expand_loop] at h
    split at h
    · simp at h
    · split at h
      · simp at h
      · rename_i hew hre
        have hcur_le : cur ≤ eW := by omega
        have hre' : ∀ e, re = some e → cur ≤ e := by
          intro e he
          subst he
          simp [past_recurrence_end] at hre
          omega
        have step : ∀ ce', ce' ∈ expand_loop conv sep re skip sW eW n (cur + sep) →
            ∃ (k : Nat) (d : Int), d = cur + (k : Int) * sep ∧ sW ≤ d ∧ d ≤ eW ∧
              d ∉ skip ∧ (∀ e, re = some e → d ≤ e) ∧ conv d = some ce' := by
          intro ce' h'
          obtain ⟨k, d, hd, h1, h2, h3, h4, h5⟩ := ih (cur + sep) ce' h'
          refine ⟨k + 1, d, ?_, h1, h2, h3, h4, h5⟩
          push_cast
          linarith [hd]
        split at h
        · rename_i hadd
          split at h
          · rename_i ce' hconv
            rcases List.mem_cons.mp h with rfl | hmem
            · exact ⟨0, cur, by simp, hadd.1, hcur_le, hadd.2, hre', hconv⟩
            · exact step ce hmem
          · exact step ce h
        · exact step ce h

theorem household_convert_on_date_shape
    (mm : List (String × HomechartHouseholdMember)) (hc : HomechartEvent)
    (x : Int) :
    ∃ ce, HomechartHouseholdCalendar.convert_homechart_event_on_date mm hc x
        = some ce ∧ ce.uid = CalUid.eventOnDate hc.id x :=
  ⟨_, rfl, rfl⟩

theorem member_convert_on_date_shape (hc : HomechartEvent) (x : Int) :
    ∃ ce, HomechartMemberCalendar.convert_homechart_event_on_date hc x
        = some ce ∧ ce.uid = CalUid.eventOnDate hc.id x :=
  ⟨_, rfl, rfl⟩

theorem expand_loop_count_zero (conv : Int → Option CalendarEvent)
    (eid : String)
    (hconv : ∀ x, ∃ ce, conv x = some ce ∧ ce.uid = CalUid.eventOnDate eid x)
    (sep : Int) (hsep : 0 < sep) (re : Option Int) (skip : List Int)
    (sW eW : Int) (fuel : Nat) (cur d : Int) (hlt : d < cur) :
    (expand_loop conv sep re skip sW eW fuel cur).countP
      (fun ce => ce.uid == CalUid.eventOnDate eid d) = 0 := by
  rw [List.countP_eq_zero]
  intro ce hce
  obtain ⟨k, d', hd', _, _, _, _, hc⟩ :=
    expand_loop_sound conv sep re skip sW eW fuel cur ce hce
  obtain ⟨ce', hc', hu'⟩ := hconv d'
  rw [hc] at hc'
  have hcc : ce = ce' := Option.some.inj hc'
  have hdd : d < d' := by
    have hk : 0 ≤ (k : Int) * sep := mul_nonneg (Int.natCast_nonneg k) (le_of_lt hsep)
    omega
  subst hcc
  simp only [hu', beq_iff_eq, CalUid.eventOnDate.injEq, not_and]
  intro _
  omega

theorem expand_loop_count_one (conv : Int → Option CalendarEvent)
    (eid : String)
    (hconv : ∀ x, ∃ ce, conv x = some ce ∧ ce.uid = CalUid.eventOnDate eid x)
    (sep : Int) (hsep : 0 < sep) (re : Option Int) (skip : List Int)
    (sW eW : Int) :
    ∀ (fuel : Nat) (cur : Int) (k : Nat) (d : Int), k < fuel →
      d = cur + (k : Int) * sep → sW ≤ d → d ≤ eW → d ∉ skip →
      (∀ e, re = some e → d ≤ e) →
      (expand_loop conv sep re skip sW eW fuel cur).countP
        (fun ce => ce.uid == CalUid.eventOnDate eid d) = 1 := by
  intro fuel
  induction fuel with
  | zero => intro cur k d hk; omega
  | succ n ih =>
    intro cur k d hk hd h1 h2 h3 h4
    have hcurd : cur ≤ d := by
      have hk0 : 0 ≤ (k : Int) * sep := mul_nonneg (Int.natCast_nonneg k) (le_of_lt hsep)
      omega
    rw [expand_loop]
    rw [if_neg (by omega : ¬ cur > eW)]
    have hpast : ¬ past_recurrence_end re cur = true := by
      cases re with
      | none => simp [past_recurrence_end]
      | some e =>
        have := h4 e rfl
        simp only [past_recurrence_end, decide_eq_true_eq]
        omega
    rw [if_neg hpast]
    cases k with
    | zero =>
      have hdc : d = cur := by simpa using hd
      subst hdc
      rw [if_pos ⟨h1, h3⟩]
      obtain ⟨ce, hce, huid⟩ := hconv d
      rw [hce]
      rw [List.countP_cons]
      have hp : (ce.uid == CalUid.eventOnDate eid d) = true := by
        simp [huid]
      rw [expand_loop_count_zero conv eid hconv sep hsep re skip sW eW n
        (d + sep) d (by omega)]
      simp [hp]
    | succ k' =>
      have hlt : cur < d := by
        have hk0 : (0 : Int) < ((k' : Int) + 1) * sep :=
          mul_pos (by positivity) hsep
        have : d = cur + ((k' : Int) + 1) * sep := by push_cast at hd ⊢; linarith
        omega
      have hrec : (expand_loop conv sep re skip sW eW n (cur + sep)).countP
          (fun ce => ce.uid == CalUid.eventOnDate eid d) = 1 := by
        refine ih (cur + sep) k' d (by omega) ?_ h1 h2 h3 h4
        push_cast at hd ⊢
        linarith
      split
      · obtain ⟨ce, hce, huid⟩ := hconv cur
        rw [hce, List.countP_cons]
        have hp : (ce.uid == CalUid.eventOnDate eid d) = false := by
          simp only [huid, beq_eq_false_iff_ne, ne_eq, CalUid.eventOnDate.injEq,
            not_and]
          intro _
          omega
        rw [hrec, hp]
        simp
      · exact hrec

theorem expand_loop_pairwise (conv : Int → Option CalendarEvent)
    (eid : String)
    (hconv : ∀ x, ∃ ce, conv x = some ce ∧ ce.uid = CalUid.eventOnDate eid x)
    (sep : Int) (hsep : sep ≠ 0) (re : Option Int) (skip : List Int)
    (sW eW : Int) :
    ∀ (fuel : Nat) (cur : Int),
      (expand_loop conv sep re skip sW eW fuel cur).Pairwise
        (fun a b => a.uid ≠ b.uid) := by
  intro fuel
  induction fuel with
  | zero => intro cur; simp [expand_loop]
  | succ n ih =>
    intro cur
    rw [expand_loop]
    split
    · exact List.Pairwise.nil
    · split
      · exact List.Pairwise.nil
      · split
        · split
          · rename_i hadd ce hce
            refine List.Pairwise.cons ?_ (ih (cur + sep))
            intro b hb
            obtain ⟨k, d', hd', _, _, _, _, hcb⟩ :=
              expand_loop_sound conv sep re skip sW eW n (cur + sep) b hb
            obtain ⟨ce1, hce1, hu1⟩ := hconv cur
            obtain ⟨ce2, hce2, hu2⟩ := hconv d'
            have hb1 : ce = ce1 := by
              rw [hce] at hce1; exact Option.some.inj hce1
            have hb2 : b = ce2 := by
              rw [hcb] at hce2; exact Option.some.inj hce2
            subst hb1
            subst hb2
            rw [hu1, hu2]
            have hne : d' ≠ cur := by
              have hmul : ((k : Int) + 1) * sep ≠ 0 :=
                mul_ne_zero (by positivity) hsep
              have hde : d' = cur + ((k : Int) + 1) * sep := by
                rw [hd']; ring
              intro hcontra
              rw [hcontra] at hde
              omega
            simp only [ne_eq, CalUid.eventOnDate.injEq, not_and]
            intro _
            exact fun hdd => hne hdd.symm
          · exact ih (cur + sep)
        · exact ih (cur + sep)

/-- C3: for every input event, `_expand_recurring_event` (household and
member versions) terminates and returns at most 365 calendar occurrences,
regardless of separation, skip days or recurrence end: the date-stepping
loop executes at most `max_occurrences = 365` iterations. -/
theorem c3_expand_bounded (mm : List (String × HomechartHouseholdMember))
    (hc : HomechartEvent) (today : Int) :
    (HomechartHouseholdCalendar.expand_recurring_event mm hc today).length ≤ 365 ∧
    (HomechartMemberCalendar.expand_recurring_event hc today).length ≤ 365 := by
  constructor
  · unfold HomechartHouseholdCalendar.expand_recurring_event
    split
    · simp
    · split
      · cases HomechartHouseholdCalendar.convert_homechart_event mm hc <;> simp
      · dsimp only
        split
        · cases HomechartHouseholdCalendar.convert_homechart_event mm hc <;> simp
        · exact expand_loop_length _ _ _ _ _ _ 365 _
  · unfold HomechartMemberCalendar.expand_recurring_event
    split
    · simp
    · rename_i ds hds
      split
      · cases HomechartMemberCalendar.convert_homechart_event_on_date hc ds <;> simp
      · dsimp only
        split
        · cases HomechartMemberCalendar.convert_homechart_event_on_date hc ds <;> simp
        · exact expand_loop_length _ _ _ _ _ _ 365 _

/-- C7: both coordinators poll on fixed intervals set at construction (and
nothing in the embedded code modifies them afterwards): the task
coordinator's `update_interval` is `SCAN_INTERVAL` = 5 minutes and the
event coordinator's `update_interval` is 15 minutes. -/
theorem c7_update_intervals (members : List HomechartHouseholdMember) :
    (HomechartTaskCoordinator.create members).update_interval = SCAN_INTERVAL ∧
    SCAN_INTERVAL = 5 * 60 ∧
    (HomechartEventCoordinator.create members).update_interval = 15 * 60 :=
  ⟨rfl, rfl, rfl⟩

/-- C1: for every `HomechartEvent` with a start date and a recurrence of
nonzero separation, every `CalendarEvent` returned by
`_expand_recurring_event` (household and member versions) falls on a date
`d` equal to `date_start` plus a non-negative multiple of `separation`
days, with `today - 30 ≤ d ≤ today + 90`, `d` not a skip day, and `d` not
after the parsed recurrence end date when one is present. -/
theorem c1_expand_sound (mm : List (String × HomechartHouseholdMember))
    (hc : HomechartEvent) (today ds : Int) (rec : Recurrence)
    (hds : hc.date_start = some ds) (hrec : hc.recurrence = some rec)
    (hsep : rec.separation.getD 0 ≠ 0) :
    (∀ ce ∈ HomechartHouseholdCalendar.expand_recurring_event mm hc today,
      ∃ (k : Nat) (d : Int), d = ds + (k : Int) * rec.separation.getD 0 ∧
        today - 30 ≤ d ∧ d ≤ today + 90 ∧ d ∉ hc.skip_days ∧
        (∀ e, parse_recurrence_end rec = some e → d ≤ e) ∧
        HomechartHouseholdCalendar.convert_homechart_event_on_date mm hc d
          = some ce) ∧
    (∀ ce ∈ HomechartMemberCalendar.expand_recurring_event hc today,
      ∃ (k : Nat) (d : Int), d = ds + (k : Int) * rec.separation.getD 0 ∧
        today - 30 ≤ d ∧ d ≤ today + 90 ∧ d ∉ hc.skip_days ∧
        (∀ e, parse_recurrence_end rec = some e → d ≤ e) ∧
        HomechartMemberCalendar.convert_homechart_event_on_date hc d
          = some ce) := by
  constructor
  · intro ce hce
    simp only [HomechartHouseholdCalendar.expand_recurring_event, hds, hrec] at hce
    rw [if_neg hsep] at hce
    obtain ⟨k, d, hd, h1, h2, h3, h4, h5⟩ :=
      expand_loop_sound _ _ _ _ _ _ 365 ds ce hce
    exact ⟨k, d, hd, by omega, by omega, h3, h4, h5⟩
  · intro ce hce
    simp only [HomechartMemberCalendar.expand_recurring_event, hds, hrec] at hce
    rw [if_neg hsep] at hce
    obtain ⟨k, d, hd, h1, h2, h3, h4, h5⟩ :=
      expand_loop_sound _ _ _ _ _ _ 365 ds ce hce
    exact ⟨k, d, hd, by omega, by omega, h3, h4, h5⟩

/-- Witness for `c1_expand_sound` at the concrete event `wev100`
(start day 0, separation 100) and `today = 0`. -/
theorem c1_expand_sound_witness :
    ∃ (k : Nat) (d : Int), d = 0 + (k : Int) * wrec100.separation.getD 0 ∧
      (0 : Int) - 30 ≤ d ∧ d ≤ (0 : Int) + 90 ∧ d ∉ wev100.skip_days ∧
      (∀ e, parse_recurrence_end wrec100 = some e → d ≤ e) ∧
      HomechartHouseholdCalendar.convert_homechart_event_on_date [] wev100 d
        = some wce100 := by
  have hm : wce100 ∈
      HomechartHouseholdCalendar.expand_recurring_event [] wev100 0 := by
    have he : HomechartHouseholdCalendar.expand_recurring_event [] wev100 0
        = [wce100] := by rfl
    rw [he]
    exact List.mem_singleton.mpr rfl
  exact (c1_expand_sound [] wev100 0 0 wrec100 rfl rfl (by decide)).1 wce100 hm

/-- C9: within one call of the household `_expand_recurring_event` for an
event with nonzero separation, every returned occurrence carries the uid
`event_<event id>_<occurrence date>` (structurally,
`CalUid.eventOnDate hc.id d` for its occurrence date `d`), and the uids
are pairwise distinct, because each iteration advances the date by the
nonzero separation. -/
theorem c9_uids_distinct (mm : List (String × HomechartHouseholdMember))
    (hc : HomechartEvent) (today ds : Int) (rec : Recurrence)
    (hds : hc.date_start = some ds) (hrec : hc.recurrence = some rec)
    (hsep : rec.separation.getD 0 ≠ 0) :
    (∀ ce ∈ HomechartHouseholdCalendar.expand_recurring_event mm hc today,
      ∃ d : Int, ce.uid = CalUid.eventOnDate hc.id d ∧
        HomechartHouseholdCalendar.convert_homechart_event_on_date mm hc d
          = some ce) ∧
    (HomechartHouseholdCalendar.expand_recurring_event mm hc today).Pairwise
      (fun a b => a.uid ≠ b.uid) := by
  constructor
  · intro ce hce
    simp only [HomechartHouseholdCalendar.expand_recurring_event, hds, hrec] at hce
    rw [if_neg hsep] at hce
    obtain ⟨k, d, hd, _, _, _, _, h5⟩ :=
      expand_loop_sound _ _ _ _ _ _ 365 ds ce hce
    obtain ⟨ce', hce', huid⟩ := household_convert_on_date_shape mm hc d
    rw [h5] at hce'
    obtain rfl : ce = ce' := Option.some.inj hce'
    exact ⟨d, huid, h5⟩
  · simp only [HomechartHouseholdCalendar.expand_recurring_event, hds, hrec]
    rw [if_neg hsep]
    exact expand_loop_pairwise _ hc.id
      (household_convert_on_date_shape mm hc) _ hsep _ _ _ _ 365 ds

/-- Witness for `c9_uids_distinct` at the concrete event `wev40`
(start day 0, separation 40) and `today = 0`, whose expansion has three
occurrences; `wce40` is the first of them. -/
theorem c9_uids_distinct_witness :
    (∃ d : Int, wce40.uid = CalUid.eventOnDate wev40.id d ∧
      HomechartHouseholdCalendar.convert_homechart_event_on_date [] wev40 d
        = some wce40) ∧
    (HomechartHouseholdCalendar.expand_recurring_event [] wev40 0).Pairwise
      (fun a b => a.uid ≠ b.uid) :=
  ⟨(c9_uids_distinct [] wev40 0 0 wrec40 rfl rfl (by decide)).1 wce40
     (by decide),
   (c9_uids_distinct [] wev40 0 0 wrec40 rfl rfl (by decide)).2⟩

set_option maxRecDepth 8000 in
/-- C2 counterexample: for the concrete event `cxev1` (start day `-400`,
separation 1, no skip days, no recurrence end) and `today = 0`, the date
`0 = date_start + 400 * separation` lies in the window `[today - 30,
today + 90]`, is no skip day and is before no recurrence end, yet the
household `_expand_recurring_event` returns the empty list — the
365-iteration safety limit is exhausted before the loop reaches the
window, so the claimed occurrence is missing. -/
theorem c2_counterexample :
    cxev1.date_start = some (-400) ∧
    cxev1.recurrence = some cxrec1 ∧
    0 < cxrec1.separation.getD 0 ∧
    (0 : Int) = -400 + ((400 : Nat) : Int) * cxrec1.separation.getD 0 ∧
    (0 : Int) - 30 ≤ (0 : Int) ∧ (0 : Int) ≤ (0 : Int) + 90 ∧
    (0 : Int) ∉ cxev1.skip_days ∧
    (∀ e, parse_recurrence_end cxrec1 = some e → (0 : Int) ≤ e) ∧
    HomechartHouseholdCalendar.expand_recurring_event [] cxev1 0 = [] := by
  refine ⟨rfl, rfl, by decide, by decide, by decide, by decide, by decide,
    ?_, ?_⟩
  · intro e he
    exact Option.noConfusion he
  · rfl

/-- C2 (amended): for every event with a start date and a recurrence of
positive separation, every date of the form `date_start + k * separation`
with `k < 365` (the `max_occurrences` safety limit) that lies in the
window `[today - 30, today + 90]`, is not a skip day and is not after the
recurrence end yields exactly one occurrence in the list returned by the
household `_expand_recurring_event`. -/
theorem c2_expand_complete (mm : List (String × HomechartHouseholdMember))
    (hc : HomechartEvent) (today ds : Int) (rec : Recurrence)
    (hds : hc.date_start = some ds) (hrec : hc.recurrence = some rec)
    (hsep : 0 < rec.separation.getD 0)
    (k : Nat) (hk : k < 365) (d : Int)
    (hd : d = ds + (k : Int) * rec.separation.getD 0)
    (h1 : today - 30 ≤ d) (h2 : d ≤ today + 90) (h3 : d ∉ hc.skip_days)
    (h4 : ∀ e, parse_recurrence_end rec = some e → d ≤ e) :
    (HomechartHouseholdCalendar.expand_recurring_event mm hc today).countP
      (fun ce => ce.uid == CalUid.eventOnDate hc.id d) = 1 := by
  simp only [HomechartHouseholdCalendar.expand_recurring_event, hds, hrec]
  rw [if_neg (by omega : ¬ rec.separation.getD 0 = 0)]
  exact expand_loop_count_one _ hc.id (household_convert_on_date_shape mm hc)
    _ hsep _ _ _ _ 365 ds k d hk hd h1 h2 h3 h4

/-- Witness for `c2_expand_complete` at the concrete event `wev50`
(start day 0, separation 50), `today = 0`, `k = 1`, date 50. -/
theorem c2_expand_complete_witness :
    (HomechartHouseholdCalendar.expand_recurring_event [] wev50 0).countP
      (fun ce => ce.uid == CalUid.eventOnDate wev50.id 50) = 1 :=
  c2_expand_complete [] wev50 0 0 wrec50 rfl rfl (by decide) 1 (by decide) 50
    (by decide) (by decide) (by decide) (by decide)
    (fun _ he => Option.noConfusion he)

/-- C8: when `date_start` is unset, `_expand_recurring_event` returns the
empty list (household and member versions); when `date_start` is set but
there is no recurrence, or the recurrence's separation is 0 or absent, it
returns exactly one calendar event, the direct conversion of the record
(`_convert_homechart_event` for the household calendar,
`_convert_homechart_event_on_date` at `date_start` for the member
calendar). -/
theorem c8_no_recurrence (mm : List (String × HomechartHouseholdMember))
    (hc : HomechartEvent) (today : Int) :
    (hc.date_start = none →
      HomechartHouseholdCalendar.expand_recurring_event mm hc today = [] ∧
      HomechartMemberCalendar.expand_recurring_event hc today = []) ∧
    (∀ ds, hc.date_start = some ds →
      (hc.recurrence = none ∨
        ∃ rec, hc.recurrence = some rec ∧ rec.separation.getD 0 = 0) →
      (∃ ce, HomechartHouseholdCalendar.convert_homechart_event mm hc
          = some ce ∧
        HomechartHouseholdCalendar.expand_recurring_event mm hc today
          = [ce]) ∧
      (∃ ce, HomechartMemberCalendar.convert_homechart_event_on_date hc ds
          = some ce ∧
        HomechartMemberCalendar.expand_recurring_event hc today = [ce])) := by
  constructor
  · intro h
    constructor
    · simp only [HomechartHouseholdCalendar.expand_recurring_event, h]
    · simp only [HomechartMemberCalendar.expand_recurring_event, h]
  · intro ds hds hrec
    have hconv : ∃ ce,
        HomechartHouseholdCalendar.convert_homechart_event mm hc = some ce := by
      simp only [HomechartHouseholdCalendar.convert_homechart_event, hds]
      exact ⟨_, rfl⟩
    obtain ⟨ce, hce⟩ := hconv
    obtain ⟨ce2, hce2, _⟩ := member_convert_on_date_shape hc ds
    rcases hrec with h | ⟨rec, hr, hsep⟩
    · refine ⟨⟨ce, hce, ?_⟩, ⟨ce2, hce2, ?_⟩⟩
      · simp only [HomechartHouseholdCalendar.expand_recurring_event, hds, h,
          hce]
        rfl
      · simp only [HomechartMemberCalendar.expand_recurring_event, hds, h,
          hce2]
        rfl
    · refine ⟨⟨ce, hce, ?_⟩, ⟨ce2, hce2, ?_⟩⟩
      · simp only [HomechartHouseholdCalendar.expand_recurring_event, hds, hr]
        rw [if_pos hsep, hce]
        rfl
      · simp only [HomechartMemberCalendar.expand_recurring_event, hds, hr]
        rw [if_pos hsep, hce2]
        rfl

/-- Witness for `c8_no_recurrence`: `wev_nostart` has no start date and
expands to nothing; `wev_norec` (start day 5, no recurrence) expands to
exactly its direct conversion. -/
theorem c8_no_recurrence_witness :
    (HomechartHouseholdCalendar.expand_recurring_event [] wev_nostart 0 = [] ∧
     HomechartMemberCalendar.expand_recurring_event wev_nostart 0 = []) ∧
    ((∃ ce, HomechartHouseholdCalendar.convert_homechart_event [] wev_norec
        = some ce ∧
      HomechartHouseholdCalendar.expand_recurring_event [] wev_norec 0
        = [ce]) ∧
     (∃ ce, HomechartMemberCalendar.convert_homechart_event_on_date wev_norec 5
        = some ce ∧
      HomechartMemberCalendar.expand_recurring_event wev_norec 0 = [ce])) :=
  ⟨(c8_no_recurrence [] wev_nostart 0).1 rfl,
   (c8_no_recurrence [] wev_norec 0).2 5 rfl (Or.inl rfl)⟩

theorem filter_events_in_range_eq_filter (sD eD : Int)
    (l : List CalendarEvent) :
    filter_events_in_range l sD eD = l.filter (overlaps_range sD eD) := by
  induction l with
  | nil => rfl
  | cons ev rest ih =>
    rw [filter_events_in_range]
    simp only [List.filter_cons]
    cases hst : ev.start with
    | none =>
      simp only [overlaps_range, hst]
      rw [ih]
      simp
    | some st =>
      simp only [overlaps_range, hst]
      by_cases h : st.day ≤ eD ∧
          (match ev.ev_end with | some e => e.day | none => st.day) ≥ sD
      · rw [if_pos h, ih]
        have hb : (decide (st.day ≤ eD) &&
            decide ((match ev.ev_end with
                     | some e => e.day
                     | none => st.day) ≥ sD)) = true := by
          simp only [Bool.and_eq_true, decide_eq_true_eq]
          exact h
        rw [hb, if_pos rfl]
      · rw [if_neg h, ih]
        have hb : ¬ ((decide (st.day ≤ eD) &&
            decide ((match ev.ev_end with
                     | some e => e.day
                     | none => st.day) ≥ sD)) = true) := by
          simp only [Bool.and_eq_true, decide_eq_true_eq]
          exact h
        rw [if_neg hb]

/-- C5: for every query range, `async_get_events` (household and member
versions) returns exactly those generated calendar events whose start
calendar date is on or before the query end date and whose end calendar
date (the start date when no end is present) is on or after the query
start date; events without a start are excluded, and the kept events are
unmodified and in generation order (the result is a `List.filter` of the
generated list). -/
theorem c5_get_events_range (event_data : Option EventData)
    (task_data : Option TaskData) (member : HomechartHouseholdMember)
    (today start_d end_d : Int) :
    HomechartHouseholdCalendar.async_get_events event_data task_data today
        start_d end_d
      = (HomechartHouseholdCalendar.get_all_calendar_events event_data
          task_data today).filter (overlaps_range start_d end_d) ∧
    HomechartMemberCalendar.async_get_events event_data task_data member
        today start_d end_d
      = (HomechartMemberCalendar.get_member_calendar_events event_data
          task_data member today).filter (overlaps_range start_d end_d) :=
  ⟨filter_events_in_range_eq_filter _ _ _,
   filter_events_in_range_eq_filter _ _ _⟩

/-- C6: for every household task sensor, `native_value` equals the number
of cached tasks that are not done and whose due date is: equal to today
(`tasks_today`), strictly before today (`tasks_overdue`), or between today
and today plus `upcoming_days` (option, default 7) inclusive
(`tasks_upcoming`); tasks with no due date are never counted, and with no
coordinator data the value is 0. -/
theorem c6_sensor_counts (d : TaskData) (ud : Option Int) (today : Int) :
    HomechartHouseholdSensor.native_value (some d) ud today
        SensorType.tasks_today
      = d.tasks.countP (fun t => !t.done && (t.due_date == some today)) ∧
    HomechartHouseholdSensor.native_value (some d) ud today
        SensorType.tasks_overdue
      = d.tasks.countP (fun t => !t.done &&
          (match t.due_date with
           | some dd => decide (dd < today)
           | none => false)) ∧
    HomechartHouseholdSensor.native_value (some d) ud today
        SensorType.tasks_upcoming
      = d.tasks.countP (fun t => !t.done &&
          (match t.due_date with
           | some dd => decide (today ≤ dd ∧ dd ≤ today + ud.getD 7)
           | none => false)) ∧
    (∀ st, HomechartHouseholdSensor.native_value none ud today st = 0) := by
  refine ⟨?_, ?_, ?_, ?_⟩
  · simp only [HomechartHouseholdSensor.native_value,
      HomechartHouseholdSensor.get_filtered_tasks]
    rw [← List.countP_eq_length_filter]
    apply List.countP_congr
    intro t _
    cases t.due_date <;> cases hdone : t.done <;>
      simp [Bool.and_comm]
  · simp only [HomechartHouseholdSensor.native_value,
      HomechartHouseholdSensor.get_filtered_tasks]
    rw [← List.countP_eq_length_filter]
    apply List.countP_congr
    intro t _
    cases t.due_date <;> cases hdone : t.done <;>
      simp [Bool.and_comm]
  · simp only [HomechartHouseholdSensor.native_value,
      HomechartHouseholdSensor.get_filtered_tasks]
    rw [← List.countP_eq_length_filter]
    apply List.countP_congr
    intro t _
    cases t.due_date <;> cases hdone : t.done <;>
      simp [Bool.and_comm, and_assoc]
  · intro st
    cases st <;> rfl

/-- C4: for both coordinators, `_async_update_data` raises `UpdateFailed`
exactly when an underlying API fetch raises `HomechartApiError`; on
success it returns the dict with the freshly fetched tasks and projects
(task coordinator) or events (event coordinator) together with the
unchanged members list and the `member_map` built at construction. -/
theorem c4_update_data (members : List HomechartHouseholdMember)
    (ft : Except HomechartApiError (List HomechartTask))
    (fp : Except HomechartApiError (List HomechartProject))
    (fe : Except HomechartApiError (List HomechartEvent)) :
    ((∃ err, (HomechartTaskCoordinator.create members).async_update_data ft fp
        = Except.error err) ↔
      (∃ e, ft = Except.error e) ∨ (∃ e, fp = Except.error e)) ∧
    (∀ ts ps, ft = Except.ok ts → fp = Except.ok ps →
      (HomechartTaskCoordinator.create members).async_update_data ft fp
        = Except.ok { tasks := ts, projects := ps, members := members,
                      member_map := mk_member_map members }) ∧
    ((∃ err, (HomechartEventCoordinator.create members).async_update_data fe
        = Except.error err) ↔ (∃ e, fe = Except.error e)) ∧
    (∀ es, fe = Except.ok es →
      (HomechartEventCoordinator.create members).async_update_data fe
        = Except.ok { events := es, members := members,
                      member_map := mk_member_map members }) := by
  refine ⟨?_, ?_, ?_, ?_⟩
  · cases ft <;> cases fp <;>
      simp [HomechartTaskCoordinator.async_update_data,
        HomechartTaskCoordinator.create]
  · intro ts ps hts hps
    subst hts
    subst hps
    rfl
  · cases fe <;>
      simp [HomechartEventCoordinator.async_update_data,
        HomechartEventCoordinator.create]
  · intro es hes
    subst hes
    rfl

/-- Witness for `c4_update_data`: both coordinators built over no members,
with successful empty fetches, return the corresponding data dicts. -/
theorem c4_update_data_witness :
    (HomechartTaskCoordinator.create []).async_update_data (Except.ok [])
        (Except.ok [])
      = Except.ok { tasks := [], projects := [], members := [],
                    member_map := mk_member_map [] } ∧
    (HomechartEventCoordinator.create []).async_update_data (Except.ok [])
      = Except.ok { events := [], members := [],
                    member_map := mk_member_map [] } :=
  ⟨(c4_update_data [] (Except.ok []) (Except.ok [])
      (Except.ok [])).2.1 [] [] rfl rfl,
   (c4_update_data [] (Except.ok []) (Except.ok [])
      (Except.ok [])).2.2.2 [] rfl⟩

/-- C10: every item surfaced by a per-member entity references that
member: every calendar event returned by
`_get_member_calendar_events` comes either from a Homechart event whose
participants contain the member's id (via `_expand_recurring_event`) or
from a task whose assignees contain the member's id; every task counted by
a member sensor has the member's id among its assignees; and every item of
the member to-do list comes from a task whose assignees contain the
member's id. -/
theorem c10_member_scoping (ed : Option EventData) (td : Option TaskData)
    (member : HomechartHouseholdMember) (ud : Option Int) (today : Int)
    (st : SensorType) (show_completed : Bool) :
    (∀ ce ∈ HomechartMemberCalendar.get_member_calendar_events ed td member
        today,
      (∃ d hc, ed = some d ∧ hc ∈ d.events ∧ member.id ∈ hc.participants ∧
        ce ∈ HomechartMemberCalendar.expand_recurring_event hc today) ∨
      (∃ d t dd, td = some d ∧ t ∈ d.tasks ∧ member.id ∈ t.assignees ∧
        ce = HomechartMemberCalendar.member_task_event t dd)) ∧
    (∀ t ∈ HomechartMemberSensor.get_filtered_tasks td ud today st member,
      member.id ∈ t.assignees) ∧
    (∀ item ∈ HomechartMemberTodoList.todo_items td member show_completed,
      ∃ d t, td = some d ∧ t ∈ d.tasks ∧ member.id ∈ t.assignees ∧
        item.uid = t.id) := by
  refine ⟨?_, ?_, ?_⟩
  · intro ce hce
    unfold HomechartMemberCalendar.get_member_calendar_events at hce
    rcases List.mem_append.mp hce with h | h
    · cases ed with
      | none => simp at h
      | some d =>
        simp only [List.mem_flatten, List.mem_map] at h
        obtain ⟨l, ⟨hc, hhc, rfl⟩, hcel⟩ := h
        by_cases hp : member.id ∈ hc.participants
        · rw [if_pos hp] at hcel
          exact Or.inl ⟨d, hc, rfl, hhc, hp, hcel⟩
        · rw [if_neg hp] at hcel
          simp at hcel
    · cases td with
      | none => simp at h
      | some d =>
        simp only [List.mem_flatten, List.mem_map] at h
        obtain ⟨l, ⟨t, ht, rfl⟩, hcel⟩ := h
        cases hdd : t.due_date with
        | none => rw [hdd] at hcel; simp at hcel
        | some dd =>
          simp only [hdd] at hcel
          by_cases h1 : ¬ t.done = true
          · rw [if_pos h1] at hcel
            by_cases h2 : member.id ∈ t.assignees
            · rw [if_pos h2] at hcel
              exact Or.inr ⟨d, t, dd, rfl, ht, h2,
                List.mem_singleton.mp hcel⟩
            · rw [if_neg h2] at hcel
              simp at hcel
          · rw [if_neg h1] at hcel
            simp at hcel
  · intro t ht
    cases td with
    | none => simp [HomechartMemberSensor.get_filtered_tasks] at ht
    | some d =>
      cases st <;>
        (simp only [HomechartMemberSensor.get_filtered_tasks,
          List.mem_filter, decide_eq_true_eq] at ht;
         exact ht.1.2)
  · intro item hitem
    cases td with
    | none => simp [HomechartMemberTodoList.todo_items] at hitem
    | some d =>
      simp only [HomechartMemberTodoList.todo_items, List.mem_flatten,
        List.mem_map] at hitem
      obtain ⟨l, ⟨t, ht, rfl⟩, hil⟩ := hitem
      by_cases h1 : member.id ∉ t.assignees
      · rw [if_pos h1] at hil
        simp at hil
      · rw [if_neg h1] at hil
        rw [not_not] at h1
        by_cases h2 : (t.done && !show_completed) = true
        · rw [if_pos h2] at hil
          simp at hil
        · rw [if_neg h2] at hil
          obtain rfl := List.mem_singleton.mp hil
          exact ⟨d, t, rfl, ht, h1, rfl⟩

/-- Witness for `c10_member_scoping` at the concrete member `wmember` and
task data `wtaskdata` (one task assigned to the member, due day 0),
instantiating all three parts. -/
theorem c10_member_scoping_witness :
    ((∃ d hc, (none : Option EventData) = some d ∧ hc ∈ d.events ∧
        wmember.id ∈ hc.participants ∧
        HomechartMemberCalendar.member_task_event wtask 0
          ∈ HomechartMemberCalendar.expand_recurring_event hc 0) ∨
     (∃ d t dd, some wtaskdata = some d ∧ t ∈ d.tasks ∧
        wmember.id ∈ t.assignees ∧
        HomechartMemberCalendar.member_task_event wtask 0
          = HomechartMemberCalendar.member_task_event t dd)) ∧
    wmember.id ∈ wtask.assignees ∧
    (∃ d t, some wtaskdata = some d ∧ t ∈ d.tasks ∧
      wmember.id ∈ t.assignees ∧
      ({ uid := "t1", summary := "T", status := TodoItemStatus.needsAction,
         due := some 0, description := none } : TodoItem).uid = t.id) :=
  ⟨(c10_member_scoping none (some wtaskdata) wmember none 0
      SensorType.tasks_today false).1
      (HomechartMemberCalendar.member_task_event wtask 0) (by decide),
   (c10_member_scoping none (some wtaskdata) wmember none 0
      SensorType.tasks_today false).2.1 wtask (by decide),
   (c10_member_scoping none (some wtaskdata) wmember none 0
      SensorType.tasks_today false).2.2
      { uid := "t1", summary := "T", status := TodoItemStatus.needsAction,
        due := some 0, description := none } (by decide)⟩
